import Mathlib

/-!
Verification of the OCR pipeline repository (ocr_module.py, llm_module.py,
config.py).  Python strings are modelled as `List Char`; the pure
text-structuring code is translated directly, and the network/PIL effects of
the two dispatchers are abstracted into explicit environment records whose
fields return `Except PyErr` values, mirroring Python exceptions.
-/

namespace OCRSpec

abbrev Str := List Char

/-- Whitespace as matched by Python `\s` / `str.strip` (ASCII part; the inputs
of interest contain no exotic Unicode whitespace). -/
def pySpace (c : Char) : Bool :=
  c == ' ' || c == '\t' || c == '\n' || c == '\r' ||
  c == Char.ofNat 11 || c == Char.ofNat 12

/-- Python `str.strip()`. -/
def pyStrip (s : Str) : Str :=
  ((s.dropWhile pySpace).reverse.dropWhile pySpace).reverse

/-- Python `text.split('\n')`. -/
def splitNL : Str → List Str
  | [] => [[]]
  | c :: rest =>
    if c == '\n' then [] :: splitNL rest
    else
      match splitNL rest with
      | h :: t => (c :: h) :: t
      | [] => [[c]]

/-- Python `'\n'.join(parts)`. -/
def joinNL : List Str → Str
  | [] => []
  | [l] => l
  | l :: ls => l ++ '\n' :: joinNL ls

/-- Uppercase/lowercase pairs for the ASCII letters and the Vietnamese
letters relevant to the classifier patterns and sample documents; models the
Unicode case folding performed by `re.IGNORECASE` on these characters. -/
def casePairs : List (Char × Char) :=
  List.zip
    (("ABCDEFGHIJKLMNOPQRSTUVWXYZĂÂĐÊÔƠƯÁÀẢÃẠẮẰẲẴẶẤẦẨẪẬÉÈẺẼẸẾỀỂỄỆÍÌỈĨỊÓÒỎÕỌỐỒỔỖỘỚỜỞỠỢÚÙỦŨỤỨỪỬỮỰÝỲỶỸỴ").data)
    (("abcdefghijklmnopqrstuvwxyzăâđêôơưáàảãạắằẳẵặấầẩẫậéèẻẽẹếềểễệíìỉĩịóòỏõọốồổỗộớờởỡợúùủũụứừửữựýỳỷỹỵ").data)

/-- Simple lowercasing for the letters in `casePairs`. -/
def viLower (c : Char) : Char :=
  ((casePairs.find? (fun p => p.1 == c)).map (fun p => p.2)).getD c

/-- Case-insensitive character comparison (`re.IGNORECASE`). -/
def foldEq (a b : Char) : Bool := viLower a == viLower b

/-- Case-insensitive anchored literal match: does `l` start with pattern `p`? -/
def startsWithCI : Str → Str → Bool
  | [], _ => true
  | _ :: _, [] => false
  | p :: ps, c :: cs => foldEq p c && startsWithCI ps cs

def asciiLetter (c : Char) : Bool :=
  (65 ≤ c.toNat && c.toNat ≤ 90) || (97 ≤ c.toNat && c.toNat ≤ 122)

/-- Is the first character whitespace? -/
def headSpace : Str → Bool
  | [] => false
  | c :: _ => pySpace c

/-- The `##?\s` alternative of the section-header regex: one `#`, an optional
second `#`, then one whitespace character. -/
def hashHeader : Str → Bool
  | [] => false
  | [_] => false
  | c1 :: c2 :: rest =>
    c1 == '#' && (if c2 == '#' then headSpace rest else pySpace c2)

/-- `re.match(r'^(Điều|Mục|Phần|Chương|##?\s)', line, re.IGNORECASE)`
(ocr_module.py line 299). -/
def isSectionHeader (l : Str) : Bool :=
  startsWithCI (("Điều").data) l || startsWithCI (("Mục").data) l ||
  startsWithCI (("Phần").data) l || startsWithCI (("Chương").data) l ||
  hashHeader l

/-- `re.sub(r'^#+\s*', '', line)` (ocr_module.py line 308): strip one leading
run of `#` and the following whitespace run; lines not starting with `#` are
unchanged. -/
def cleanTitle (l : Str) : Str :=
  match l with
  | '#' :: _ => (l.dropWhile (fun c => c == '#')).dropWhile pySpace
  | _ => l

/-- Is the first character a colon? -/
def headColon : Str → Bool
  | [] => false
  | c :: _ => c == ':'

/-- `\s*[A-Z]:` — skip the rest of the whitespace run, then one ASCII letter
(the class `[A-Z]` also matches lowercase under `re.IGNORECASE`) and a colon. -/
def benTailRest : Str → Bool
  | [] => false
  | c :: cs => if pySpace c then benTailRest cs else asciiLetter c && headColon cs

/-- `\s+[A-Z]:` — at least one whitespace character, then a letter and colon.
The greedy `\s+` is forced: backtracking cannot help because `[A-Z]` never
matches a whitespace character. -/
def benTail : Str → Bool
  | [] => false
  | c :: cs => pySpace c && benTailRest cs

/-- The `Bên\s+[A-Z]` alternative of the field regex followed by `:`. -/
def benAltMatch (l : Str) : Bool :=
  startsWithCI (("Bên").data) l && benTail (l.drop 3)

/-- After a (possibly continuing) ASCII-letter run, is the first non-letter
character a colon? -/
def colonAfterRun : Str → Bool
  | [] => false
  | c :: cs => if asciiLetter c then colonAfterRun cs else c == ':'

/-- The `[A-Za-z]+:` alternative: a maximal nonempty ASCII-letter run followed
by a colon (greediness is forced, since the run cannot end on a letter). -/
def letterRunColon : Str → Bool
  | [] => false
  | c :: cs => asciiLetter c && colonAfterRun cs

/-- `re.match(r'^(Bên\s+[A-Z]|Địa chỉ|Tổng giá trị|Thanh toán|[A-Za-z]+):',
line, re.IGNORECASE)` (ocr_module.py line 311). -/
def isFieldLine (l : Str) : Bool :=
  benAltMatch l || startsWithCI (("Địa chỉ:").data) l ||
  startsWithCI (("Tổng giá trị:").data) l ||
  startsWithCI (("Thanh toán:").data) l || letterRunColon l

/-- Letters recognised by Python `str.isalnum()` beyond ASCII, restricted to
the Vietnamese alphabet used by this repository. -/
def viLetters : Str :=
  (("ăâđêôơưáàảãạắằẳẵặấầẩẫậéèẻẽẹếềểễệíìỉĩịóòỏõọốồổỗộớờởỡợúùủũụứừửữựýỳỷỹỵ" ++
    "ĂÂĐÊÔƠƯÁÀẢÃẠẮẰẲẴẶẤẦẨẪẬÉÈẺẼẸẾỀỂỄỆÍÌỈĨỊÓÒỎÕỌỐỒỔỖỘỚỜỞỠỢÚÙỦŨỤỨỪỬỮỰÝỲỶỸỴ").data)

/-- Python `char.isalnum()` (ASCII alphanumerics plus the Vietnamese letters). -/
def pyAlnum (c : Char) : Bool := c.isAlphanum || viLetters.contains c

def quot : Char := Char.ofNat 34
def apos : Char := Char.ofNat 39

/-- Python single-character `str.replace(old, new)`. -/
def replaceChar (old : Char) (new : Str) (s : Str) : Str :=
  s.flatMap (fun c => if c == old then new else [c])

/-- `escape_xml` (ocr_module.py lines 338-345): five sequential replaces,
ampersand first. -/
def escape_xml (s : Str) : Str :=
  replaceChar apos (("&apos;").data)
    (replaceChar quot (("&quot;").data)
      (replaceChar '>' (("&gt;").data)
        (replaceChar '<' (("&lt;").data)
          (replaceChar '&' (("&amp;").data) s))))

/-- One item appended to `xml_parts` by `text_to_xml`: a top-level field, a
standalone header, or a flushed section with its buffered paragraphs. -/
inductive Entry where
  | field : Str → Str → Entry
  | header : Str → Entry
  | sect : Str → List Str → Entry
deriving DecidableEq

/-- The `if current_section:` flush fragment (ocr_module.py lines 301-305 and
327-331). -/
def flushSection : Option Str → List Str → List Entry
  | none, _ => []
  | some t, ps => [Entry.sect t ps]

/-- The per-line loop of `text_to_xml` (ocr_module.py lines 297-331), with its
mutable state (`current_section`, `section_content`) passed explicitly; the
entries appear in the order the corresponding strings are appended to
`xml_parts`. -/
def structLoop : List Str → Option Str → List Str → List Entry
  | [], cur, ps => flushSection cur ps
  | l :: rest, cur, ps =>
    if isSectionHeader l then
      flushSection cur ps ++ structLoop rest (some (cleanTitle l)) []
    else if isFieldLine l then
      if l.contains ':' then
        Entry.field (pyStrip (l.takeWhile (fun c => c != ':')))
            (pyStrip ((l.dropWhile (fun c => c != ':')).drop 1)) ::
          structLoop rest cur ps
      else
        structLoop rest cur (ps ++ [l])
    else if cur.isSome then
      structLoop rest cur (ps ++ [l])
    else if l.any pyAlnum then
      Entry.header l :: structLoop rest cur ps
    else
      structLoop rest cur ps

/-- The exact strings `text_to_xml` appends to `xml_parts` for one entry. -/
def serializeEntry : Entry → List Str
  | .field k v =>
    [(("  <field name=\"").data) ++ escape_xml k ++ (("\">").data) ++
      escape_xml v ++ (("</field>").data)]
  | .header t =>
    [(("  <header>").data) ++ escape_xml t ++ (("</header>").data)]
  | .sect t ps =>
    ((("  <section title=\"").data) ++ escape_xml t ++ (("\">").data)) ::
      ps.map (fun p =>
        (("    <paragraph>").data) ++ escape_xml p ++ (("</paragraph>").data)) ++
      [(("  </section>").data)]

/-- `[line.strip() for line in text.split('\n') if line.strip()]`
(ocr_module.py line 290). -/
def prepLines (t : Str) : List Str :=
  ((splitNL t).map pyStrip).filter (fun l => !l.isEmpty)

def declLine : Str := (("<?xml version=\"1.0\" encoding=\"UTF-8\"?>").data)
def docOpenLine : Str := (("<document>").data)
def docCloseLine : Str := (("</document>").data)

/-- The final `xml_parts` list built by `text_to_xml`. -/
def xmlParts (t : Str) : List Str :=
  declLine :: docOpenLine ::
    ((structLoop (prepLines t) none []).flatMap serializeEntry ++ [docCloseLine])

/-- `text_to_xml` (ocr_module.py lines 280-335). -/
def text_to_xml (t : Str) : Str := joinNL (xmlParts t)

/-! ### mock_paraphrase (llm_module.py lines 62-84) -/

/-- A character allowed inside the first capture group `[^/>]+`. -/
def tagOk (c : Char) : Bool := c != '/' && c != '>'

/-- Attempt to match `<([^/>]+)>([^<]+)</([^>]+)>` anchored at the head of
`s`, returning the three capture groups and the text after the match.  Each
greedy character-class run is forced (a shorter run would put a character of
the same class where the following literal is required), so the Python
backtracking search reduces to maximal `takeWhile` runs. -/
def matchTagP (s : Str) : Option (Str × Str × Str × Str) :=
  match s with
  | '<' :: r1 =>
    let tag := r1.takeWhile tagOk
    if tag.isEmpty then none else
    match r1.dropWhile tagOk with
    | '>' :: r2 =>
      let content := r2.takeWhile (fun c => c != '<')
      if content.isEmpty then none else
      match r2.dropWhile (fun c => c != '<') with
      | '<' :: '/' :: r3 =>
        let closing := r3.takeWhile (fun c => c != '>')
        if closing.isEmpty then none else
        match r3.dropWhile (fun c => c != '>') with
        | '>' :: r4 => some (tag, content, closing, r4)
        | _ => none
      | _ => none
    | _ => none
  | _ => none

/-- The fixed rewrite marker `[Đã viết lại] ` (with its trailing space). -/
def rewriteMark : Str := (("[Đã viết lại] ").data)

/-- The `replace_content` callback: keep the match unchanged when the tag is
the XML declaration pseudo-tag (starts with `?`) or the content strips to
empty, otherwise prefix the content with the marker. -/
def replace_content (tag content closing : Str) : Str :=
  if (match tag with | c :: _ => c == '?' | [] => false) ||
      (pyStrip content).isEmpty then
    '<' :: (tag ++ '>' :: (content ++ '<' :: '/' :: (closing ++ ['>'])))
  else
    '<' :: (tag ++ '>' :: (rewriteMark ++ content ++ '<' :: '/' :: (closing ++ ['>'])))

/-- The left-to-right scan of `re.sub`: at each position try the anchored
match; on success emit the replacement and continue after the match, otherwise
keep one character and move on.  The fuel argument only bounds recursion depth:
every step consumes at least one character, so `s.length` fuel always
suffices and the `0` case is never reached from `mock_paraphrase`. -/
def subFuel : Nat → Str → Str
  | _, [] => []
  | 0, s => s
  | fuel + 1, c :: rest =>
    match matchTagP (c :: rest) with
    | some (t, co, cl, r) => replace_content t co cl ++ subFuel fuel r
    | none => c :: subFuel fuel rest

/-- `mock_paraphrase` (llm_module.py lines 62-84). -/
def mock_paraphrase (xml_content : Str) : Str :=
  subFuel xml_content.length xml_content

/-! ### Errors and environments for the two dispatchers

Network calls, PIL image decoding and optional imports are modelled by
environment records; a field of type `Except PyErr _` stands for a Python call
that either returns or raises. -/

/-- Python exceptions relevant to the dispatchers.  `valueError` covers the
missing-credential and unknown-identifier raises, `runtimeError` the remote
non-success responses, `transportError` timeouts/connection failures raised
inside client libraries, `decodeError` a failing `Image.open`. -/
inductive PyErr where
  | valueError : Str → PyErr
  | runtimeError : Str → PyErr
  | transportError : Str → PyErr
  | decodeError : Str → PyErr
deriving DecidableEq

/-- A PIL image, abstracted to the only attribute the dispatch logic reads. -/
structure Image where
  mode : Str
deriving DecidableEq

/-- `if image.mode != 'RGB': image = image.convert('RGB')`. -/
def toRGB (img : Image) : Image :=
  if img.mode == (("RGB").data) then img else { mode := (("RGB").data) }

/-- The fixed canned contract text returned by `mock_ocr`
(ocr_module.py lines 203-220). -/
def mockText : Str :=
  (("Hợp đồng mua bán\n    \nBên A: Công ty TNHH ABC\nĐịa chỉ: 123 Đường Nguyễn Huệ, Quận 1, TP.HCM\n\nBên B: Ông Nguyễn Văn A\nĐịa chỉ: 456 Đường Lê Lợi, Quận 3, TP.HCM\n\nĐiều 1: Đối tượng hợp đồng\nBên A đồng ý bán cho Bên B sản phẩm theo danh sách đính kèm.\n\nĐiều 2: Giá trị hợp đồng\nTổng giá trị: 100.000.000 VNĐ (Một trăm triệu đồng)\n\nĐiều 3: Phương thức thanh toán\nThanh toán 50% khi ký hợp đồng, 50% còn lại khi giao hàng.").data)

/-- `mock_ocr` (ocr_module.py lines 203-220): ignores the image. -/
def mock_ocr (_ : Image) : Str := mockText

/-- The configuration fields read by the OCR path (config.py). -/
structure OcrConfig where
  OCR_PROVIDER : Str
  DEEPSEEK_OCR_MODE : Str
  CLARIFAI_PAT : Str
  TESSERACT_LANG : Str

/-- The parts of a Clarifai HTTP response the code inspects; the JSON
extraction `result["outputs"][0]["data"]["text"]["raw"]` is abstracted to the
`raw` field. -/
structure ClarifaiResponse where
  status_code : Nat
  text : Str
  raw : Str

/-- External world of the OCR dispatcher: image decoding, the three remote
DeepSeek strategies, and the optional pytesseract dependency.  Each function
field bundles everything the corresponding Python call chain may raise. -/
structure OcrEnv where
  config : OcrConfig
  /-- Result of `Image.open(BytesIO(image_data))` on the request's bytes. -/
  decodeImage : Except PyErr Image
  /-- `get_deepseek_model()` followed by `model.chat(image, prompt, ...)`. -/
  deepseekLocalChat : Image → Str → Except PyErr Str
  /-- The vLLM OpenAI-compatible `chat.completions.create` round trip. -/
  deepseekVllmCreate : Image → Str → Except PyErr Str
  /-- `requests.post` to the Clarifai endpoint (may raise in transport). -/
  clarifaiPost : Image → Str → Except PyErr ClarifaiResponse
  /-- Whether `import pytesseract` succeeds. -/
  pytesseractAvailable : Bool
  /-- `pytesseract.image_to_string(image, lang=lang)`. -/
  tesseractImageToString : Image → Str → Except PyErr Str

/-- `ocr_with_deepseek_local` (ocr_module.py lines 63-85). -/
def ocr_with_deepseek_local (env : OcrEnv) (image : Image) (prompt : Option Str) :
    Except PyErr Str :=
  env.deepseekLocalChat (toRGB image)
    (prompt.getD (("<image>\n<|grounding|>Convert the document to markdown.").data))

/-- `ocr_with_deepseek_vllm` (ocr_module.py lines 88-139). -/
def ocr_with_deepseek_vllm (env : OcrEnv) (image : Image) (prompt : Option Str) :
    Except PyErr Str :=
  env.deepseekVllmCreate (toRGB image) (prompt.getD (("Free OCR.").data))

/-- `ocr_with_clarifai` (ocr_module.py lines 142-190): credential check, POST,
status check, payload extraction. -/
def ocr_with_clarifai (env : OcrEnv) (image : Image) (prompt : Option Str) :
    Except PyErr Str :=
  if env.config.CLARIFAI_PAT.isEmpty then
    .error (.valueError (("CLARIFAI_PAT not configured").data))
  else
    match env.clarifaiPost (toRGB image) (prompt.getD (("Free OCR.").data)) with
    | .error e => .error e
    | .ok resp =>
      if resp.status_code != 200 then
        .error (.runtimeError ((("Clarifai API error: ").data) ++ resp.text))
      else
        .ok resp.raw

/-- `ocr_with_tesseract` (ocr_module.py lines 193-200): when the pytesseract
dependency import fails it substitutes `mock_ocr`; any error from the OCR call
itself propagates. -/
def ocr_with_tesseract (env : OcrEnv) (image : Image) (lang : Option Str) :
    Except PyErr Str :=
  if env.pytesseractAvailable then
    env.tesseractImageToString image (lang.getD env.config.TESSERACT_LANG)
  else
    .ok (mock_ocr image)

/-- The body of the `try:` block of `extract_text_from_image`
(ocr_module.py lines 248-271): provider/mode branching, with the two
unknown-identifier raises. -/
def dispatchOcr (env : OcrEnv) (provider mode : Str) (image : Image)
    (prompt : Option Str) : Except PyErr (Str × Str) :=
  if provider == (("deepseek").data) then
    if mode == (("local").data) then
      (ocr_with_deepseek_local env image prompt).map
        (fun t => (t, ("deepseek-local").data))
    else if mode == (("vllm").data) then
      (ocr_with_deepseek_vllm env image prompt).map
        (fun t => (t, ("deepseek-vllm").data))
    else if mode == (("api").data) then
      (ocr_with_clarifai env image prompt).map
        (fun t => (t, ("deepseek-clarifai").data))
    else
      .error (.valueError ((("Unknown DeepSeek mode: ").data) ++ mode))
  else if provider == (("tesseract").data) then
    (ocr_with_tesseract env image none).map (fun t => (t, ("tesseract").data))
  else if provider == (("mock").data) then
    .ok (mock_ocr image, ("mock").data)
  else
    .error (.valueError ((("Unknown OCR provider: ").data) ++ provider))

/-- `extract_text_from_image` (ocr_module.py lines 223-277).  Decoding and
colour normalisation happen before the `try:`; any exception raised inside the
dispatch is caught and converted to the mock fallback. -/
def extract_text_from_image (env : OcrEnv) (provider mode prompt : Option Str) :
    Except PyErr (Str × Str) :=
  let provider := provider.getD env.config.OCR_PROVIDER
  let mode := mode.getD env.config.DEEPSEEK_OCR_MODE
  match env.decodeImage with
  | .error e => .error e
  | .ok img =>
    let image := toRGB img
    match dispatchOcr env provider mode image prompt with
    | .ok r => .ok r
    | .error _ => .ok (mock_ocr image, ("mock (fallback)").data)

/-! ### paraphrase_xml (llm_module.py lines 7-59) -/

/-- The configuration fields read by the LLM path (config.py). -/
structure LlmConfig where
  LLM_PROVIDER : Str
  OPENAI_API_KEY : Str
  ANTHROPIC_API_KEY : Str

/-- External world of the paraphrase dispatcher. -/
structure LlmEnv where
  config : LlmConfig
  /-- The OpenAI `chat.completions.create` round trip on the given prompt. -/
  openaiCreate : Str → Except PyErr Str
  /-- The Anthropic `messages.create` round trip on the given prompt. -/
  anthropicCreate : Str → Except PyErr Str

/-- The fixed Vietnamese instruction template with the XML embedded verbatim
(llm_module.py lines 20-28). -/
def paraphrasePrompt (xml_content : Str) : Str :=
  (("Bạn là một chuyên gia về ngôn ngữ tiếng Việt. \nHãy paraphrase (viết lại) các đoạn văn bản tiếng Việt trong XML sau đây, \ngiữ nguyên cấu trúc XML và các thẻ, chỉ thay đổi nội dung văn bản bên trong các thẻ.\nĐảm bảo giữ nguyên ý nghĩa nhưng sử dụng cách diễn đạt khác.\n\nXML gốc:\n").data) ++
  xml_content ++ (("\n\nTrả về XML đã được paraphrase:").data)

/-- `paraphrase_xml` (llm_module.py lines 7-59): no try/except — credential
failures are raised and any downstream failure propagates unchanged. -/
def paraphrase_xml (env : LlmEnv) (xml_content : Str) (provider : Option Str) :
    Except PyErr Str :=
  let provider := provider.getD env.config.LLM_PROVIDER
  let prompt := paraphrasePrompt xml_content
  if provider == (("openai").data) then
    if env.config.OPENAI_API_KEY.isEmpty then
      .error (.valueError (("OPENAI_API_KEY not configured").data))
    else
      env.openaiCreate prompt
  else if provider == (("anthropic").data) then
    if env.config.ANTHROPIC_API_KEY.isEmpty then
      .error (.valueError (("ANTHROPIC_API_KEY not configured").data))
    else
      env.anthropicCreate prompt
  else
    .error (.valueError ((("Unknown LLM provider: ").data) ++ provider))

/-! ### Auxiliary definitions for the verification -/

/-- The five reserved markup characters handled by `escape_xml`. -/
def reservedChar (c : Char) : Bool :=
  c == '&' || c == '<' || c == '>' || c == quot || c == apos

/-- Number of reserved characters in a string. -/
def reservedCount (s : Str) : Nat := s.countP reservedChar

/-- A concrete non-RGB decoded image, for exercising the dispatcher. -/
def sampleImage : Image := { mode := (("L").data) }

/-- A concrete OCR environment: no Clarifai credential, pytesseract missing,
every remote strategy failing in its own way. -/
def envBase : OcrEnv where
  config :=
    { OCR_PROVIDER := (("deepseek").data)
      DEEPSEEK_OCR_MODE := (("local").data)
      CLARIFAI_PAT := []
      TESSERACT_LANG := (("vie+eng").data) }
  decodeImage := .ok sampleImage
  deepseekLocalChat := fun _ _ =>
    .error (.runtimeError (("Failed to load DeepSeek-OCR model").data))
  deepseekVllmCreate := fun _ _ =>
    .error (.transportError (("Connection refused").data))
  clarifaiPost := fun _ _ =>
    .ok { status_code := 500, text := (("server error").data), raw := [] }
  pytesseractAvailable := false
  tesseractImageToString := fun _ _ => .ok (("scanned text").data)

/-- `envBase` with undecodable image bytes. -/
def envBadImage : OcrEnv :=
  { envBase with
    decodeImage := .error (.decodeError (("cannot identify image file").data)) }

/-- A concrete LLM environment: no OpenAI key, an Anthropic key present, the
OpenAI call timing out and the Anthropic call succeeding. -/
def envLlm : LlmEnv where
  config :=
    { LLM_PROVIDER := (("openai").data)
      OPENAI_API_KEY := []
      ANTHROPIC_API_KEY := (("sk-test").data) }
  openaiCreate := fun _ => .error (.transportError (("timeout").data))
  anthropicCreate := fun _ => .ok (("<document>\n</document>").data)

/-- A line as produced by the split/strip/filter preprocessing of
`text_to_xml`: free of newlines, already stripped, and nonempty.  The
preprocessing maps any input line to such a line or discards it. -/
def normLine (l : Str) : Bool :=
  !l.any (fun c => c == '\n') && (pyStrip l == l) && !l.isEmpty

/-- The line sequence of a list of sections given as (header line, body
lines) groups. -/
def groupLines (gs : List (Str × List Str)) : List Str :=
  gs.flatMap (fun g => g.1 :: g.2)

/-- Shape of one serialized line between the document header and footer:
a field, header, section-open, section-close, or paragraph line. -/
def entryLineOk (l : Str) : Bool :=
  (("  <field name=\"").data).isPrefixOf l ||
  (("  <header>").data).isPrefixOf l ||
  (("  <section title=\"").data).isPrefixOf l ||
  l == (("  </section>").data) ||
  (("    <paragraph>").data).isPrefixOf l

/-- One complete tag unit `<tag>content</closing>` of the mock paraphraser's
regular expression. -/
structure TagUnit where
  tag : Str
  content : Str
  closing : Str

/-- The concrete text of a tag unit. -/
def renderUnit (u : TagUnit) : Str :=
  ['<'] ++ u.tag ++ ['>'] ++ u.content ++ ['<', '/'] ++ u.closing ++ ['>']

/-- The unit is matched by the regex `<([^/>]+)>([^<]+)</([^>]+)>`: all three
groups nonempty and over their character classes. -/
def goodUnit (u : TagUnit) : Bool :=
  !u.tag.isEmpty && u.tag.all tagOk && !u.content.isEmpty &&
  u.content.all (fun c => c != '<') && !u.closing.isEmpty &&
  u.closing.all (fun c => c != '>')

/-! ## Theorems -/

theorem escape_xml_append (a b : Str) :
    escape_xml (a ++ b) = escape_xml a ++ escape_xml b := by
  simp [escape_xml, replaceChar, List.flatMap_append]

theorem escape_xml_cons (c : Char) (s : Str) :
    escape_xml (c :: s) = escape_xml [c] ++ escape_xml s := by
  simpa using escape_xml_append [c] s

theorem escape_xml_single_id (c : Char) (h : reservedChar c = false) :
    escape_xml [c] = [c] := by
  simp only [reservedChar, Bool.or_eq_false_iff, beq_eq_false_iff_ne, ne_eq] at h
  obtain ⟨⟨⟨⟨h1, h2⟩, h3⟩, h4⟩, h5⟩ := h
  simp [escape_xml, replaceChar, h1, h2, h3, h4, h5]

theorem count_amp_single (c : Char) :
    (escape_xml [c]).count '&' = if reservedChar c then 1 else 0 := by
  by_cases h : reservedChar c = true
  · rw [if_pos h]
    simp only [reservedChar, Bool.or_eq_true, beq_iff_eq] at h
    rcases h with ((((h | h) | h) | h) | h) <;> subst h <;> decide
  · have h' : reservedChar c = false := by simpa using h
    rw [escape_xml_single_id c h', if_neg h]
    have hne : ¬(c = '&') := by
      intro hc
      subst hc
      simp [reservedChar] at h'
    simp [List.count_cons, hne]

theorem count_amp_escape (s : Str) :
    (escape_xml s).count '&' = reservedCount s := by
  induction s with
  | nil => rfl
  | cons c s ih =>
    rw [escape_xml_cons, List.count_append, ih, count_amp_single]
    simp only [reservedCount, List.countP_cons]
    by_cases h : reservedChar c = true
    · simp [h]
      omega
    · simp [h]

/-- C9: `escape_xml` returns any string free of the five reserved characters
`&`, `<`, `>`, `"`, `'` unchanged, and two inputs with different
reserved-character counts always escape to different outputs (the output's
ampersand count equals the input's reserved-character count). -/
theorem escape_xml_unchanged_and_count_injective :
    (∀ s : Str, (∀ c ∈ s, reservedChar c = false) → escape_xml s = s) ∧
    (∀ s t : Str, reservedCount s ≠ reservedCount t →
      escape_xml s ≠ escape_xml t) := by
  constructor
  · intro s h
    induction s with
    | nil => rfl
    | cons c s ih =>
      rw [escape_xml_cons, escape_xml_single_id c (h c (by simp))]
      rw [ih (fun x hx => h x (by simp [hx]))]
      simp
  · intro s t hne heq
    apply hne
    rw [← count_amp_escape s, ← count_amp_escape t, heq]

/-- Witness for C9 at concrete inputs. -/
theorem escape_xml_unchanged_and_count_injective_w :
    escape_xml (("abc").data) = (("abc").data) ∧
    escape_xml (("&").data) ≠ escape_xml (("a").data) := by
  constructor
  · exact escape_xml_unchanged_and_count_injective.1 (("abc").data) (by decide)
  · exact escape_xml_unchanged_and_count_injective.2 (("&").data) (("a").data)
      (by decide)

/-- C1: for a decodable image, whenever the dispatched strategy raises any
error — including an unknown provider identifier or DeepSeek mode —
`extract_text_from_image` does not raise: it returns the mock generator's
fixed canned text with the label "mock (fallback)", which differs from a
genuine "mock" request's label. -/
theorem extract_text_fallback_on_error (env : OcrEnv)
    (provider mode prompt : Option Str) (img : Image) (e : PyErr)
    (hdec : env.decodeImage = .ok img)
    (herr : dispatchOcr env (provider.getD env.config.OCR_PROVIDER)
      (mode.getD env.config.DEEPSEEK_OCR_MODE) (toRGB img) prompt = .error e) :
    extract_text_from_image env provider mode prompt =
      .ok (mockText, ("mock (fallback)").data) ∧
    (("mock (fallback)").data : Str) ≠ (("mock").data) := by
  refine ⟨?_, by decide⟩
  simp only [extract_text_from_image, hdec, herr, mock_ocr]

/-- Witness for C1: provider "bogus" matches no strategy, the dispatch raises
`ValueError`, and the call still falls back to mock. -/
theorem extract_text_fallback_on_error_w :
    extract_text_from_image envBase (some (("bogus").data)) none none =
      .ok (mockText, ("mock (fallback)").data) ∧
    (("mock (fallback)").data : Str) ≠ (("mock").data) :=
  extract_text_fallback_on_error envBase (some (("bogus").data)) none none
    sampleImage
    (.valueError ((("Unknown OCR provider: ").data) ++ (("bogus").data)))
    rfl rfl

/-- C10: `Image.open` runs before the `try:` block, so a decode failure is
raised to the caller rather than converted to the mock fallback; conversely,
once decoding succeeds the call never raises. -/
theorem extract_decode_outside_guard (env : OcrEnv)
    (provider mode prompt : Option Str) :
    (∀ e : PyErr, env.decodeImage = .error e →
      extract_text_from_image env provider mode prompt = .error e) ∧
    (∀ img : Image, env.decodeImage = .ok img →
      ∀ e : PyErr, extract_text_from_image env provider mode prompt ≠ .error e) := by
  constructor
  · intro e he
    simp [extract_text_from_image, he]
  · intro img hi e
    simp only [extract_text_from_image, hi]
    cases hd : dispatchOcr env (provider.getD env.config.OCR_PROVIDER)
        (mode.getD env.config.DEEPSEEK_OCR_MODE) (toRGB img) prompt <;>
      simp [hd]

/-- Witness for C10: undecodable bytes raise the decode error; the same
environment with decodable bytes cannot raise. -/
theorem extract_decode_outside_guard_w :
    extract_text_from_image envBadImage none none none =
      .error (.decodeError (("cannot identify image file").data)) ∧
    extract_text_from_image envBase none none none ≠
      .error (.decodeError (("cannot identify image file").data)) := by
  constructor
  · exact (extract_decode_outside_guard envBadImage none none none).1
      (.decodeError (("cannot identify image file").data)) rfl
  · exact (extract_decode_outside_guard envBase none none none).2
      sampleImage rfl (.decodeError (("cannot identify image file").data))

/-- C6: `paraphrase_xml` raises `ValueError` (the configuration error) for an
unknown provider identifier and for a missing credential of the selected
provider, and otherwise returns the downstream call's result unchanged — it
never catches downstream failures and never substitutes the mock
paraphraser. -/
theorem paraphrase_xml_dispatch (env : LlmEnv) (xml : Str) (p : Option Str) :
    (p.getD env.config.LLM_PROVIDER ≠ (("openai").data) →
     p.getD env.config.LLM_PROVIDER ≠ (("anthropic").data) →
      paraphrase_xml env xml p =
        .error (.valueError ((("Unknown LLM provider: ").data) ++
          p.getD env.config.LLM_PROVIDER))) ∧
    (p.getD env.config.LLM_PROVIDER = (("openai").data) →
     env.config.OPENAI_API_KEY = [] →
      paraphrase_xml env xml p =
        .error (.valueError (("OPENAI_API_KEY not configured").data))) ∧
    (p.getD env.config.LLM_PROVIDER = (("anthropic").data) →
     env.config.ANTHROPIC_API_KEY = [] →
      paraphrase_xml env xml p =
        .error (.valueError (("ANTHROPIC_API_KEY not configured").data))) ∧
    (p.getD env.config.LLM_PROVIDER = (("openai").data) →
     env.config.OPENAI_API_KEY ≠ [] →
      paraphrase_xml env xml p = env.openaiCreate (paraphrasePrompt xml)) ∧
    (p.getD env.config.LLM_PROVIDER = (("anthropic").data) →
     env.config.ANTHROPIC_API_KEY ≠ [] →
      paraphrase_xml env xml p = env.anthropicCreate (paraphrasePrompt xml)) := by
  refine ⟨?_, ?_, ?_, ?_, ?_⟩
  · intro h1 h2
    simp [paraphrase_xml, h1, h2]
  · intro h1 h2
    simp [paraphrase_xml, h1, h2]
  · intro h1 h2
    by_cases ho : p.getD env.config.LLM_PROVIDER = (("openai").data)
    · rw [h1] at ho
      exact absurd ho (by decide)
    · simp [paraphrase_xml, h1, h2, ho]
  · intro h1 h2
    simp [paraphrase_xml, h1, h2]
  · intro h1 h2
    by_cases ho : p.getD env.config.LLM_PROVIDER = (("openai").data)
    · rw [h1] at ho
      exact absurd ho (by decide)
    · simp [paraphrase_xml, h1, h2, ho]

/-- Witness for C6: unknown provider rejected; missing OpenAI key rejected;
with the key present the transport failure of the call propagates unchanged. -/
theorem paraphrase_xml_dispatch_w :
    paraphrase_xml envLlm (("<document>\n</document>").data)
        (some (("bogus").data)) =
      .error (.valueError ((("Unknown LLM provider: ").data) ++
        (("bogus").data))) ∧
    paraphrase_xml envLlm (("<document>\n</document>").data) none =
      .error (.valueError (("OPENAI_API_KEY not configured").data)) ∧
    paraphrase_xml envLlm (("<document>\n</document>").data)
        (some (("anthropic").data)) =
      envLlm.anthropicCreate
        (paraphrasePrompt (("<document>\n</document>").data)) := by
  refine ⟨?_, ?_, ?_⟩
  · exact (paraphrase_xml_dispatch envLlm (("<document>\n</document>").data)
      (some (("bogus").data))).1 (by decide) (by decide)
  · exact (paraphrase_xml_dispatch envLlm (("<document>\n</document>").data)
      none).2.1 rfl rfl
  · exact (paraphrase_xml_dispatch envLlm (("<document>\n</document>").data)
      (some (("anthropic").data))).2.2.2.2 rfl (by decide)

/-- C7 counterexample: with pytesseract unavailable, requesting provider
"tesseract" returns the mock generator's canned text under the genuine label
"tesseract" (`ocr_with_tesseract` substitutes `mock_ocr` on ImportError,
ocr_module.py lines 199-200), so mock-produced text is returned under a label
that is neither "mock" nor the fallback label. -/
theorem mock_text_under_tesseract_label :
    extract_text_from_image envBase (some (("tesseract").data)) none none =
      .ok (mockText, ("tesseract").data) ∧
    (("tesseract").data : Str) ≠ (("mock").data) ∧
    (("tesseract").data : Str) ≠ (("mock (fallback)").data) :=
  ⟨rfl, by decide, by decide⟩

/-- C7 amended: in a successful `extract_text_from_image` result the label
identifies the dispatch branch that produced the text: mock text is returned
under "mock" and "mock (fallback)"; the deepseek labels carry their strategy's
own output; and "tesseract" carries the pytesseract output when the dependency
is available but the mock generator's canned text when it is not. -/
theorem extract_label_provenance (env : OcrEnv)
    (provider mode prompt : Option Str) (img : Image) (t l : Str)
    (hdec : env.decodeImage = .ok img)
    (h : extract_text_from_image env provider mode prompt = .ok (t, l)) :
    ((l = (("mock").data) ∨ l = (("mock (fallback)").data)) → t = mockText) ∧
    (l = (("tesseract").data) →
      (env.pytesseractAvailable = true ∧
        env.tesseractImageToString (toRGB img) env.config.TESSERACT_LANG =
          .ok t) ∨
      (env.pytesseractAvailable = false ∧ t = mockText)) ∧
    (l = (("deepseek-local").data) →
      ocr_with_deepseek_local env (toRGB img) prompt = .ok t) ∧
    (l = (("deepseek-vllm").data) →
      ocr_with_deepseek_vllm env (toRGB img) prompt = .ok t) ∧
    (l = (("deepseek-clarifai").data) →
      ocr_with_clarifai env (toRGB img) prompt = .ok t) ∧
    (l = (("mock").data) ∨ l = (("mock (fallback)").data) ∨
     l = (("tesseract").data) ∨ l = (("deepseek-local").data) ∨
     l = (("deepseek-vllm").data) ∨ l = (("deepseek-clarifai").data)) := by
  simp only [extract_text_from_image, hdec] at h
  cases hd : dispatchOcr env (provider.getD env.config.OCR_PROVIDER)
      (mode.getD env.config.DEEPSEEK_OCR_MODE) (toRGB img) prompt with
  | error e =>
    rw [hd] at h
    simp only [mock_ocr, Except.ok.injEq, Prod.mk.injEq] at h
    obtain ⟨ht, hl⟩ := h
    subst hl
    refine ⟨fun _ => ht.symm, ?_, ?_, ?_, ?_, ?_⟩ <;>
      first
        | (intro heq; exact absurd heq (by decide))
        | simp
  | ok r =>
    rw [hd] at h
    simp only [Except.ok.injEq] at h
    subst h
    rw [dispatchOcr] at hd
    by_cases hp :
        (provider.getD env.config.OCR_PROVIDER == (("deepseek").data)) = true
    · rw [if_pos hp] at hd
      by_cases hm1 :
          (mode.getD env.config.DEEPSEEK_OCR_MODE == (("local").data)) = true
      · rw [if_pos hm1] at hd
        cases hres : ocr_with_deepseek_local env (toRGB img) prompt with
        | error e =>
          rw [hres] at hd
          exact absurd hd (by simp [Except.map])
        | ok txt =>
          rw [hres] at hd
          simp only [Except.map, Except.ok.injEq, Prod.mk.injEq] at hd
          obtain ⟨h1, h2⟩ := hd
          subst h1
          subst h2
          refine ⟨?_, ?_, fun _ => rfl, ?_, ?_, ?_⟩ <;>
            first
              | (intro heq
                 rcases heq with heq | heq <;> exact absurd heq (by decide))
              | simp
      · rw [if_neg hm1] at hd
        by_cases hm2 :
            (mode.getD env.config.DEEPSEEK_OCR_MODE == (("vllm").data)) = true
        · rw [if_pos hm2] at hd
          cases hres : ocr_with_deepseek_vllm env (toRGB img) prompt with
          | error e =>
            rw [hres] at hd
            exact absurd hd (by simp [Except.map])
          | ok txt =>
            rw [hres] at hd
            simp only [Except.map, Except.ok.injEq, Prod.mk.injEq] at hd
            obtain ⟨h1, h2⟩ := hd
            subst h1
            subst h2
            refine ⟨?_, ?_, ?_, fun _ => rfl, ?_, ?_⟩ <;>
              first
                | (intro heq
                   rcases heq with heq | heq <;> exact absurd heq (by decide))
                | simp
        · rw [if_neg hm2] at hd
          by_cases hm3 :
              (mode.getD env.config.DEEPSEEK_OCR_MODE == (("api").data)) = true
          · rw [if_pos hm3] at hd
            cases hres : ocr_with_clarifai env (toRGB img) prompt with
            | error e =>
              rw [hres] at hd
              exact absurd hd (by simp [Except.map])
            | ok txt =>
              rw [hres] at hd
              simp only [Except.map, Except.ok.injEq, Prod.mk.injEq] at hd
              obtain ⟨h1, h2⟩ := hd
              subst h1
              subst h2
              refine ⟨?_, ?_, ?_, ?_, fun _ => rfl, ?_⟩ <;>
                first
                  | (intro heq
                     rcases heq with heq | heq <;>
                       exact absurd heq (by decide))
                  | simp
          · rw [if_neg hm3] at hd
            exact absurd hd (by simp)
    · rw [if_neg hp] at hd
      by_cases hpt :
          (provider.getD env.config.OCR_PROVIDER == (("tesseract").data)) = true
      · rw [if_pos hpt] at hd
        cases hres : ocr_with_tesseract env (toRGB img) none with
        | error e =>
          rw [hres] at hd
          exact absurd hd (by simp [Except.map])
        | ok txt =>
          rw [hres] at hd
          simp only [Except.map, Except.ok.injEq, Prod.mk.injEq] at hd
          obtain ⟨h1, h2⟩ := hd
          subst h1
          subst h2
          refine ⟨?_, ?_, ?_, ?_, ?_, ?_⟩
          · intro heq
            rcases heq with heq | heq <;> exact absurd heq (by decide)
          · intro _
            rw [ocr_with_tesseract] at hres
            cases hav : env.pytesseractAvailable <;> rw [hav] at hres
            · right
              refine ⟨rfl, ?_⟩
              simp only [Bool.false_eq_true, if_false, Except.ok.injEq,
                mock_ocr] at hres
              exact hres.symm
            · left
              refine ⟨rfl, ?_⟩
              simp only [if_true] at hres
              simpa using hres
          · intro heq; exact absurd heq (by decide)
          · intro heq; exact absurd heq (by decide)
          · intro heq; exact absurd heq (by decide)
          · simp
      · rw [if_neg hpt] at hd
        by_cases hmk :
            (provider.getD env.config.OCR_PROVIDER == (("mock").data)) = true
        · rw [if_pos hmk] at hd
          simp only [Except.ok.injEq, Prod.mk.injEq] at hd
          obtain ⟨h1, h2⟩ := hd
          subst h1
          subst h2
          refine ⟨fun _ => rfl, ?_, ?_, ?_, ?_, by simp⟩ <;>
            (intro heq; exact absurd heq (by decide))
        · rw [if_neg hmk] at hd
          exact absurd hd (by simp)

/-- Witness for C7's amended theorem: a genuine mock request carries mock
text under the label "mock". -/
theorem extract_label_provenance_w :
    extract_text_from_image envBase (some (("mock").data)) none none =
      .ok (mockText, ("mock").data) ∧
    mockText = mockText :=
  ⟨rfl,
    (extract_label_provenance envBase (some (("mock").data)) none none
      sampleImage mockText (("mock").data) rfl rfl).1 (Or.inl rfl)⟩

/-! ### The field pattern and the section-header pattern are disjoint -/

theorem viLower_eq_target (c d : Char) (h : viLower c = d) :
    c = d ∨ (c, d) ∈ casePairs := by
  unfold viLower at h
  cases hf : casePairs.find? (fun p => p.1 == c) with
  | none =>
    rw [hf] at h
    exact Or.inl (by simpa using h)
  | some p =>
    rw [hf] at h
    simp at h
    right
    have h1 : p.1 = c := by simpa using List.find?_some hf
    have h2 := List.mem_of_find?_eq_some hf
    rw [← h1, ← h]
    simpa using h2

theorem asciiLetter_viLower_ascii (c : Char) (hc : asciiLetter c = true) :
    asciiLetter (viLower c) = true := by
  rcases viLower_eq_target c (viLower c) rfl with h | hm
  · rw [← h]
    exact hc
  · have htab : ∀ p ∈ casePairs, asciiLetter p.1 = true →
        asciiLetter p.2 = true := by decide
    exact htab _ hm hc

theorem asciiLetter_viLower_ne (c d : Char) (hc : asciiLetter c = true)
    (hd : asciiLetter d = false) : viLower c ≠ d := by
  intro h
  have ha := asciiLetter_viLower_ascii c hc
  rw [h, hd] at ha
  simp at ha

theorem startsWithCI_cons (p : Char) (ps : Str) (l : Str)
    (h : startsWithCI (p :: ps) l = true) :
    ∃ c cs, l = c :: cs ∧ viLower c = viLower p ∧ startsWithCI ps cs = true := by
  cases l with
  | nil => exact absurd h (by simp [startsWithCI])
  | cons c cs =>
    simp only [startsWithCI, foldEq, Bool.and_eq_true, beq_iff_eq] at h
    exact ⟨c, cs, rfl, h.1.symm, h.2⟩

theorem startsWithCI_false_head (p : Char) (ps : Str) (c : Char) (cs : Str)
    (hne : ¬ viLower p = viLower c) :
    startsWithCI (p :: ps) (c :: cs) = false := by
  simp [startsWithCI, foldEq, hne]

theorem startsWithCI_false_second (p1 p2 : Char) (ps : Str) (c1 c2 : Char)
    (cs : Str) (hne : ¬ viLower p2 = viLower c2) :
    startsWithCI (p1 :: p2 :: ps) (c1 :: c2 :: cs) = false := by
  simp [startsWithCI, foldEq, hne]

theorem startsWithCI_false_third (p1 p2 p3 : Char) (ps : Str) (c1 c2 c3 : Char)
    (cs : Str) (hne : ¬ viLower p3 = viLower c3) :
    startsWithCI (p1 :: p2 :: p3 :: ps) (c1 :: c2 :: c3 :: cs) = false := by
  simp [startsWithCI, foldEq, hne]

theorem hashHeader_shape (l : Str) (h : hashHeader l = true) :
    ∃ c2 rest, l = '#' :: c2 :: rest := by
  cases l with
  | nil => exact absurd h (by simp [hashHeader])
  | cons c1 l1 =>
    cases l1 with
    | nil => exact absurd h (by simp [hashHeader])
    | cons c2 rest =>
      simp only [hashHeader, Bool.and_eq_true, beq_iff_eq] at h
      exact ⟨c2, rest, by rw [h.1]⟩

theorem colonAfterRun_head (c : Char) (cs : Str)
    (h : colonAfterRun (c :: cs) = true) :
    (asciiLetter c = true ∧ colonAfterRun cs = true) ∨ c = ':' := by
  by_cases ha : asciiLetter c = true
  · left
    refine ⟨ha, ?_⟩
    simpa [colonAfterRun, ha] using h
  · right
    have ha' : asciiLetter c = false := by simpa using ha
    simpa [colonAfterRun, ha'] using h

/-- Header test fails when even the first character folds to none of
`đ`, `m`, `p`, `c` and is not `#`. -/
theorem isSectionHeader_false_first (c1 : Char) (cs : Str)
    (h1 : ¬ viLower 'Đ' = viLower c1) (h2 : ¬ viLower 'M' = viLower c1)
    (h3 : ¬ viLower 'P' = viLower c1) (h4 : ¬ viLower 'C' = viLower c1)
    (h5 : c1 ≠ '#') :
    isSectionHeader (c1 :: cs) = false := by
  have f1 : startsWithCI (("Điều").data) (c1 :: cs) = false := by
    rw [show (("Điều").data) = 'Đ' :: (("iều").data) from rfl]
    exact startsWithCI_false_head _ _ _ _ h1
  have f2 : startsWithCI (("Mục").data) (c1 :: cs) = false := by
    rw [show (("Mục").data) = 'M' :: (("ục").data) from rfl]
    exact startsWithCI_false_head _ _ _ _ h2
  have f3 : startsWithCI (("Phần").data) (c1 :: cs) = false := by
    rw [show (("Phần").data) = 'P' :: (("hần").data) from rfl]
    exact startsWithCI_false_head _ _ _ _ h3
  have f4 : startsWithCI (("Chương").data) (c1 :: cs) = false := by
    rw [show (("Chương").data) = 'C' :: (("hương").data) from rfl]
    exact startsWithCI_false_head _ _ _ _ h4
  have f5 : hashHeader (c1 :: cs) = false := by
    by_contra hhh
    rw [Bool.not_eq_false] at hhh
    obtain ⟨c2, rest, heq⟩ := hashHeader_shape _ hhh
    injection heq with ha _
    exact h5 ha
  simp [isSectionHeader, f1, f2, f3, f4, f5]

/-- Header test fails for a line starting like `Địa chỉ` (folds `đ`, `ị`). -/
theorem isSectionHeader_false_dia (c1 c2 : Char) (cs : Str)
    (he1 : viLower c1 = 'đ') (he2 : viLower c2 = 'ị') :
    isSectionHeader (c1 :: c2 :: cs) = false := by
  have f1 : startsWithCI (("Điều").data) (c1 :: c2 :: cs) = false := by
    rw [show (("Điều").data) = 'Đ' :: 'i' :: (("ều").data) from rfl]
    exact startsWithCI_false_second _ _ _ _ _ _ (by rw [he2]; decide)
  have f2 : startsWithCI (("Mục").data) (c1 :: c2 :: cs) = false := by
    rw [show (("Mục").data) = 'M' :: (("ục").data) from rfl]
    exact startsWithCI_false_head _ _ _ _ (by rw [he1]; decide)
  have f3 : startsWithCI (("Phần").data) (c1 :: c2 :: cs) = false := by
    rw [show (("Phần").data) = 'P' :: (("hần").data) from rfl]
    exact startsWithCI_false_head _ _ _ _ (by rw [he1]; decide)
  have f4 : startsWithCI (("Chương").data) (c1 :: c2 :: cs) = false := by
    rw [show (("Chương").data) = 'C' :: (("hương").data) from rfl]
    exact startsWithCI_false_head _ _ _ _ (by rw [he1]; decide)
  have f5 : hashHeader (c1 :: c2 :: cs) = false := by
    by_contra hhh
    rw [Bool.not_eq_false] at hhh
    obtain ⟨c2x, rest, heq⟩ := hashHeader_shape _ hhh
    injection heq with ha _
    rw [ha] at he1
    exact absurd he1 (by decide)
  simp [isSectionHeader, f1, f2, f3, f4, f5]

/-- Header test fails when the first three characters are ASCII letters. -/
theorem isSectionHeader_false_ascii3 (c1 c2 c3 : Char) (cs : Str)
    (ha1 : asciiLetter c1 = true) (ha2 : asciiLetter c2 = true)
    (ha3 : asciiLetter c3 = true) :
    isSectionHeader (c1 :: c2 :: c3 :: cs) = false := by
  have f1 : startsWithCI (("Điều").data) (c1 :: c2 :: c3 :: cs) = false := by
    rw [show (("Điều").data) = 'Đ' :: (("iều").data) from rfl]
    exact startsWithCI_false_head _ _ _ _
      (Ne.symm (asciiLetter_viLower_ne c1 _ ha1 (by decide)))
  have f2 : startsWithCI (("Mục").data) (c1 :: c2 :: c3 :: cs) = false := by
    rw [show (("Mục").data) = 'M' :: 'ụ' :: (("c").data) from rfl]
    exact startsWithCI_false_second _ _ _ _ _ _
      (Ne.symm (asciiLetter_viLower_ne c2 _ ha2 (by decide)))
  have f3 : startsWithCI (("Phần").data) (c1 :: c2 :: c3 :: cs) = false := by
    rw [show (("Phần").data) = 'P' :: 'h' :: 'ầ' :: (("n").data) from rfl]
    exact startsWithCI_false_third _ _ _ _ _ _ _ _
      (Ne.symm (asciiLetter_viLower_ne c3 _ ha3 (by decide)))
  have f4 : startsWithCI (("Chương").data) (c1 :: c2 :: c3 :: cs) = false := by
    rw [show (("Chương").data) = 'C' :: 'h' :: 'ư' :: (("ơng").data) from rfl]
    exact startsWithCI_false_third _ _ _ _ _ _ _ _
      (Ne.symm (asciiLetter_viLower_ne c3 _ ha3 (by decide)))
  have f5 : hashHeader (c1 :: c2 :: c3 :: cs) = false := by
    by_contra hhh
    rw [Bool.not_eq_false] at hhh
    obtain ⟨c2x, rest, heq⟩ := hashHeader_shape _ hhh
    injection heq with ha _
    rw [ha] at ha1
    exact absurd ha1 (by decide)
  simp [isSectionHeader, f1, f2, f3, f4, f5]

/-- Header test fails when the first two characters are ASCII letters and the
third is a colon. -/
theorem isSectionHeader_false_ascii2_colon (c1 c2 : Char) (cs : Str)
    (ha1 : asciiLetter c1 = true) (ha2 : asciiLetter c2 = true) :
    isSectionHeader (c1 :: c2 :: ':' :: cs) = false := by
  have f1 : startsWithCI (("Điều").data) (c1 :: c2 :: ':' :: cs) = false := by
    rw [show (("Điều").data) = 'Đ' :: (("iều").data) from rfl]
    exact startsWithCI_false_head _ _ _ _
      (Ne.symm (asciiLetter_viLower_ne c1 _ ha1 (by decide)))
  have f2 : startsWithCI (("Mục").data) (c1 :: c2 :: ':' :: cs) = false := by
    rw [show (("Mục").data) = 'M' :: 'ụ' :: (("c").data) from rfl]
    exact startsWithCI_false_second _ _ _ _ _ _
      (Ne.symm (asciiLetter_viLower_ne c2 _ ha2 (by decide)))
  have f3 : startsWithCI (("Phần").data) (c1 :: c2 :: ':' :: cs) = false := by
    rw [show (("Phần").data) = 'P' :: 'h' :: 'ầ' :: (("n").data) from rfl]
    exact startsWithCI_false_third _ _ _ _ _ _ _ _ (by decide)
  have f4 : startsWithCI (("Chương").data) (c1 :: c2 :: ':' :: cs) = false := by
    rw [show (("Chương").data) = 'C' :: 'h' :: 'ư' :: (("ơng").data) from rfl]
    exact startsWithCI_false_third _ _ _ _ _ _ _ _ (by decide)
  have f5 : hashHeader (c1 :: c2 :: ':' :: cs) = false := by
    by_contra hhh
    rw [Bool.not_eq_false] at hhh
    obtain ⟨c2x, rest, heq⟩ := hashHeader_shape _ hhh
    injection heq with ha _
    rw [ha] at ha1
    exact absurd ha1 (by decide)
  simp [isSectionHeader, f1, f2, f3, f4, f5]

/-- Header test fails when the first character is an ASCII letter and the
second is a colon. -/
theorem isSectionHeader_false_ascii1_colon (c1 : Char) (cs : Str)
    (ha1 : asciiLetter c1 = true) :
    isSectionHeader (c1 :: ':' :: cs) = false := by
  have f1 : startsWithCI (("Điều").data) (c1 :: ':' :: cs) = false := by
    rw [show (("Điều").data) = 'Đ' :: (("iều").data) from rfl]
    exact startsWithCI_false_head _ _ _ _
      (Ne.symm (asciiLetter_viLower_ne c1 _ ha1 (by decide)))
  have f2 : startsWithCI (("Mục").data) (c1 :: ':' :: cs) = false := by
    rw [show (("Mục").data) = 'M' :: 'ụ' :: (("c").data) from rfl]
    exact startsWithCI_false_second _ _ _ _ _ _ (by decide)
  have f3 : startsWithCI (("Phần").data) (c1 :: ':' :: cs) = false := by
    rw [show (("Phần").data) = 'P' :: 'h' :: (("ần").data) from rfl]
    exact startsWithCI_false_second _ _ _ _ _ _ (by decide)
  have f4 : startsWithCI (("Chương").data) (c1 :: ':' :: cs) = false := by
    rw [show (("Chương").data) = 'C' :: 'h' :: (("ương").data) from rfl]
    exact startsWithCI_false_second _ _ _ _ _ _ (by decide)
  have f5 : hashHeader (c1 :: ':' :: cs) = false := by
    by_contra hhh
    rw [Bool.not_eq_false] at hhh
    obtain ⟨c2x, rest, heq⟩ := hashHeader_shape _ hhh
    injection heq with ha _
    rw [ha] at ha1
    exact absurd ha1 (by decide)
  simp [isSectionHeader, f1, f2, f3, f4, f5]

/-- A line matching the key-value field pattern never matches the
section-header pattern: the two classifier branches are disjoint, so the
field branch of `text_to_xml` is reached exactly on the field-pattern
lines. -/
theorem isFieldLine_not_header (l : Str) (hf : isFieldLine l = true) :
    isSectionHeader l = false := by
  simp only [isFieldLine, Bool.or_eq_true] at hf
  rcases hf with ((((hben | hdia) | htong) | hthanh) | hrun)
  · -- Bên alternative: first character folds to b
    have hsw : startsWithCI (("Bên").data) l = true := by
      simp only [benAltMatch, Bool.and_eq_true] at hben
      exact hben.1
    obtain ⟨c1, cs1, rfl, he1, -⟩ := startsWithCI_cons _ _ _ hsw
    rw [show viLower 'B' = 'b' by decide] at he1
    refine isSectionHeader_false_first c1 cs1 ?_ ?_ ?_ ?_ ?_
    · rw [he1]; decide
    · rw [he1]; decide
    · rw [he1]; decide
    · rw [he1]; decide
    · intro hx
      rw [hx] at he1
      exact absurd he1 (by decide)
  · -- Địa chỉ alternative: first two characters fold to đ, ị
    obtain ⟨c1, cs1, rfl, he1, hrest⟩ := startsWithCI_cons _ _ _ hdia
    obtain ⟨c2, cs2, rfl, he2, -⟩ := startsWithCI_cons _ _ _ hrest
    rw [show viLower 'Đ' = 'đ' by decide] at he1
    rw [show viLower 'ị' = 'ị' by decide] at he2
    exact isSectionHeader_false_dia c1 c2 cs2 he1 he2
  · -- Tổng giá trị alternative: first character folds to t
    obtain ⟨c1, cs1, rfl, he1, -⟩ := startsWithCI_cons _ _ _ htong
    rw [show viLower 'T' = 't' by decide] at he1
    refine isSectionHeader_false_first c1 cs1 ?_ ?_ ?_ ?_ ?_
    · rw [he1]; decide
    · rw [he1]; decide
    · rw [he1]; decide
    · rw [he1]; decide
    · intro hx
      rw [hx] at he1
      exact absurd he1 (by decide)
  · -- Thanh toán alternative: first character folds to t
    obtain ⟨c1, cs1, rfl, he1, -⟩ := startsWithCI_cons _ _ _ hthanh
    rw [show viLower 'T' = 't' by decide] at he1
    refine isSectionHeader_false_first c1 cs1 ?_ ?_ ?_ ?_ ?_
    · rw [he1]; decide
    · rw [he1]; decide
    · rw [he1]; decide
    · rw [he1]; decide
    · intro hx
      rw [hx] at he1
      exact absurd he1 (by decide)
  · -- letter-run alternative
    cases l with
    | nil => exact absurd hrun (by simp [letterRunColon])
    | cons c1 cs1 =>
      simp only [letterRunColon, Bool.and_eq_true] at hrun
      obtain ⟨ha1, hrest⟩ := hrun
      cases cs1 with
      | nil => exact absurd hrest (by simp [colonAfterRun])
      | cons c2 cs2 =>
        rcases colonAfterRun_head c2 cs2 hrest with ⟨ha2, hrest2⟩ | hcolon
        · cases cs2 with
          | nil => exact absurd hrest2 (by simp [colonAfterRun])
          | cons c3 cs3 =>
            rcases colonAfterRun_head c3 cs3 hrest2 with ⟨ha3, -⟩ | hcolon3
            · exact isSectionHeader_false_ascii3 c1 c2 c3 cs3 ha1 ha2 ha3
            · subst hcolon3
              exact isSectionHeader_false_ascii2_colon c1 c2 cs3 ha1 ha2
        · subst hcolon
          exact isSectionHeader_false_ascii1_colon c1 cs2 ha1

/-! ### Preprocessing and structuring lemmas -/

theorem splitNL_no_nl (l : Str) (h : '\n' ∉ l) : splitNL l = [l] := by
  induction l with
  | nil => rfl
  | cons c cs ih =>
    have hc : ¬((c == '\n') = true) := by
      simp only [beq_iff_eq]
      intro hh
      exact h (by rw [hh]; exact List.mem_cons_self _ _)
    simp only [splitNL]
    rw [if_neg hc, ih (fun hm => h (List.mem_cons_of_mem _ hm))]

theorem splitNL_append (l s : Str) (h : '\n' ∉ l) :
    splitNL (l ++ '\n' :: s) = l :: splitNL s := by
  induction l with
  | nil => simp [splitNL]
  | cons c cs ih =>
    have hc : ¬((c == '\n') = true) := by
      simp only [beq_iff_eq]
      intro hh
      exact h (by rw [hh]; exact List.mem_cons_self _ _)
    simp only [List.cons_append, splitNL, List.append_eq]
    rw [if_neg hc, ih (fun hm => h (List.mem_cons_of_mem _ hm))]

theorem normLine_factsOut (l : Str) (h : normLine l = true) :
    '\n' ∉ l ∧ pyStrip l = l ∧ l.isEmpty = false := by
  simp only [normLine, Bool.and_eq_true, Bool.not_eq_true', beq_iff_eq] at h
  obtain ⟨⟨hn, hs⟩, hne⟩ := h
  refine ⟨?_, hs, hne⟩
  intro hm
  have : l.any (fun c => c == '\n') = true :=
    List.any_eq_true.mpr ⟨'\n', hm, by simp⟩
  rw [this] at hn
  cases hn

/-- The split/strip/filter preprocessing is the identity on a newline-join of
already-normalised lines. -/
theorem prepLines_joinNL (ls : List Str) (h : ∀ l ∈ ls, normLine l = true) :
    prepLines (joinNL ls) = ls := by
  induction ls with
  | nil => rfl
  | cons l ls ih =>
    obtain ⟨hnm, hs, hne⟩ := normLine_factsOut l (h l (List.mem_cons_self _ _))
    cases ls with
    | nil =>
      show prepLines l = [l]
      rw [prepLines, splitNL_no_nl l hnm]
      simp [hs, hne]
    | cons l2 ls2 =>
      have hrest := ih (fun x hx => h x (List.mem_cons_of_mem _ hx))
      show prepLines (l ++ '\n' :: joinNL (l2 :: ls2)) = l :: l2 :: ls2
      rw [prepLines, splitNL_append _ _ hnm]
      simp only [List.map_cons, List.filter_cons, hs, hne]
      have hrest' : ((splitNL (joinNL (l2 :: ls2))).map pyStrip).filter
          (fun x => !x.isEmpty) = l2 :: ls2 := hrest
      simp [hrest']

/-- Body lines (neither header nor field) accumulate into the open section's
paragraph buffer in order. -/
theorem structLoop_bodies : ∀ (bs rest : List Str) (t : Str) (ps : List Str),
    (∀ b ∈ bs, isSectionHeader b = false ∧ isFieldLine b = false) →
    structLoop (bs ++ rest) (some t) ps = structLoop rest (some t) (ps ++ bs) := by
  intro bs
  induction bs with
  | nil =>
    intro rest t ps _
    simp
  | cons b bs ih =>
    intro rest t ps hb
    obtain ⟨hh, hf⟩ := hb b (List.mem_cons_self _ _)
    have hrest : ∀ x ∈ bs, isSectionHeader x = false ∧ isFieldLine x = false :=
      fun x hx => hb x (List.mem_cons_of_mem _ hx)
    simp only [List.cons_append, structLoop, hh, hf]
    simp only [Bool.false_eq_true, if_false, Option.isSome_some, if_true,
      List.append_eq]
    rw [ih rest t (ps ++ [b]) hrest, List.append_assoc]
    rfl

/-- Running the structurer over (header, bodies) groups flushes any open
section and then produces exactly one section entry per group, in order. -/
theorem structLoop_groups : ∀ (gs : List (Str × List Str)) (cur : Option Str)
    (ps : List Str),
    (∀ g ∈ gs, isSectionHeader g.1 = true) →
    (∀ g ∈ gs, ∀ b ∈ g.2, isSectionHeader b = false ∧ isFieldLine b = false) →
    structLoop (groupLines gs) cur ps =
      flushSection cur ps ++
        gs.map (fun g => Entry.sect (cleanTitle g.1) g.2) := by
  intro gs
  induction gs with
  | nil =>
    intro cur ps _ _
    simp [groupLines, structLoop]
  | cons g gs ih =>
    intro cur ps hh hb
    have hg := hh g (List.mem_cons_self _ _)
    have hgb := hb g (List.mem_cons_self _ _)
    show structLoop (g.1 :: (g.2 ++ groupLines gs)) cur ps = _
    simp only [structLoop, hg, if_true]
    rw [structLoop_bodies g.2 (groupLines gs) (cleanTitle g.1) [] hgb]
    rw [ih (some (cleanTitle g.1)) ([] ++ g.2)
      (fun x hx => hh x (List.mem_cons_of_mem _ hx))
      (fun x hx => hb x (List.mem_cons_of_mem _ hx))]
    simp [flushSection]

/-- C2: for input consisting solely of section-header lines with their body
lines (no field lines, no alphanumeric-free lines), `text_to_xml` emits
exactly one section element per header line, in input order, containing one
paragraph per body line of that header's group, and the section open at end
of input is flushed. -/
theorem text_to_xml_sections (gs : List (Str × List Str))
    (hh : ∀ g ∈ gs, normLine g.1 = true ∧ isSectionHeader g.1 = true)
    (hb : ∀ g ∈ gs, ∀ b ∈ g.2, normLine b = true ∧ isSectionHeader b = false ∧
      isFieldLine b = false ∧ b.any pyAlnum = true) :
    text_to_xml (joinNL (groupLines gs)) =
      joinNL (declLine :: docOpenLine ::
        ((gs.map (fun g => Entry.sect (cleanTitle g.1) g.2)).flatMap
            serializeEntry ++ [docCloseLine])) := by
  rw [text_to_xml, xmlParts]
  rw [prepLines_joinNL (groupLines gs) ?_]
  · rw [structLoop_groups gs none [] (fun g hg => (hh g hg).2)
      (fun g hg b hbm => ⟨((hb g hg b hbm).2).1, ((hb g hg b hbm).2).2.1⟩)]
    rfl
  · intro l hl
    simp only [groupLines, List.mem_flatMap] at hl
    obtain ⟨g, hg, hmem⟩ := hl
    rcases List.mem_cons.mp hmem with rfl | hbody
    · exact (hh g hg).1
    · exact (hb g hg l hbody).1

/-- Witness for C2 at a concrete two-section input. -/
theorem text_to_xml_sections_w :
    text_to_xml (joinNL (groupLines
        [((("Điều 1").data), [(("một").data), (("hai").data)]),
         ((("## T").data), [(("ba").data)])])) =
      joinNL (declLine :: docOpenLine ::
        (([((("Điều 1").data), [(("một").data), (("hai").data)]),
           ((("## T").data), [(("ba").data)])].map
            (fun g => Entry.sect (cleanTitle g.1) g.2)).flatMap
              serializeEntry ++ [docCloseLine])) :=
  text_to_xml_sections
    [((("Điều 1").data), [(("một").data), (("hai").data)]),
     ((("## T").data), [(("ba").data)])]
    (by decide) (by decide)

/-- Processing a section-header line flushes the open section and opens a new
one titled with the cleaned header. -/
theorem structLoop_header (l : Str) (rest : List Str) (cur : Option Str)
    (ps : List Str) (hh : isSectionHeader l = true) :
    structLoop (l :: rest) cur ps =
      flushSection cur ps ++ structLoop rest (some (cleanTitle l)) [] := by
  simp [structLoop, hh]

/-- Processing a field-pattern line with a colon emits the split field entry
immediately and leaves the section state untouched. -/
theorem structLoop_field (l : Str) (rest : List Str) (cur : Option Str)
    (ps : List Str) (hf : isFieldLine l = true) (hc : l.contains ':' = true) :
    structLoop (l :: rest) cur ps =
      Entry.field (pyStrip (l.takeWhile (fun c => c != ':')))
          (pyStrip ((l.dropWhile (fun c => c != ':')).drop 1)) ::
        structLoop rest cur ps := by
  have hnh := isFieldLine_not_header l hf
  have hcm : ':' ∈ l := by simpa using hc
  simp [structLoop, hnh, hf, hcm]

set_option maxHeartbeats 1600000 in
/-- C4: every line matching the field pattern and containing a colon is split
on its first colon into a stripped key and value and emitted immediately as a
field entry, whatever the open-section state, without modifying that state;
and end to end, the line "Địa chỉ: 123 Đường ABC" yields exactly a top-level
field element with name `Địa chỉ` and text `123 Đường ABC`. -/
theorem field_line_split_emit :
    (∀ (l : Str) (rest : List Str) (cur : Option Str) (ps : List Str),
      isFieldLine l = true → l.contains ':' = true →
      structLoop (l :: rest) cur ps =
        Entry.field (pyStrip (l.takeWhile (fun c => c != ':')))
            (pyStrip ((l.dropWhile (fun c => c != ':')).drop 1)) ::
          structLoop rest cur ps) ∧
    text_to_xml (("Địa chỉ: 123 Đường ABC").data) =
      joinNL [declLine, docOpenLine,
        (("  <field name=\"Địa chỉ\">123 Đường ABC</field>").data),
        docCloseLine] := by
  constructor
  · intro l rest cur ps hf hc
    exact structLoop_field l rest cur ps hf hc
  · decide

/-- Witness for C4's universally quantified part at a concrete field line
with a section open. -/
theorem field_line_split_emit_w :
    structLoop [(("Bên A: X").data)] (some (("T").data)) [(("p").data)] =
      Entry.field
          (pyStrip ((("Bên A: X").data).takeWhile (fun c => c != ':')))
          (pyStrip (((("Bên A: X").data).dropWhile (fun c => c != ':')).drop 1)) ::
        structLoop [] (some (("T").data)) [(("p").data)] :=
  field_line_split_emit.1 (("Bên A: X").data) [] (some (("T").data))
    [(("p").data)] (by decide) (by decide)

set_option maxHeartbeats 1600000 in
/-- C3 counterexample: on "Điều 1: Đối tượng\nBên A: Công ty" the field
element produced by the second line sits at index 2 of the emitted parts,
BEFORE the section element (index 3) opened by the first line — the section,
encountered first, is flushed only at end of input, so a field seen while a
section is open precedes that section element instead of following it. -/
theorem field_before_section_cex :
    xmlParts (("Điều 1: Đối tượng\nBên A: Công ty").data) =
      [declLine, docOpenLine,
        (("  <field name=\"Bên A\">Công ty</field>").data),
        (("  <section title=\"Điều 1: Đối tượng\">").data),
        (("  </section>").data),
        docCloseLine] ∧
    (xmlParts (("Điều 1: Đối tượng\nBên A: Công ty").data))[2]? =
      some (("  <field name=\"Bên A\">Công ty</field>").data) ∧
    (xmlParts (("Điều 1: Đối tượng\nBên A: Công ty").data))[3]? =
      some (("  <section title=\"Điều 1: Đối tượng\">").data) := by
  refine ⟨by decide, by decide, by decide⟩

/-- C3 amended: entries are emitted in processing order — fields and
standalone headers immediately, a section only when it is flushed by the next
header or by end of input — so a field line encountered while a section is
open yields a field element placed BEFORE that section's element. -/
theorem field_emitted_before_section_flush (h f : Str) (bs : List Str)
    (hhn : normLine h = true) (hhdr : isSectionHeader h = true)
    (hfn : normLine f = true) (hfld : isFieldLine f = true)
    (hcol : f.contains ':' = true)
    (hbs : ∀ b ∈ bs, normLine b = true ∧ isSectionHeader b = false ∧
      isFieldLine b = false) :
    text_to_xml (joinNL (h :: f :: bs)) =
      joinNL (declLine :: docOpenLine ::
        (serializeEntry (Entry.field
            (pyStrip (f.takeWhile (fun c => c != ':')))
            (pyStrip ((f.dropWhile (fun c => c != ':')).drop 1))) ++
          serializeEntry (Entry.sect (cleanTitle h) bs) ++ [docCloseLine])) := by
  rw [text_to_xml, xmlParts]
  rw [prepLines_joinNL (h :: f :: bs) ?_]
  · rw [structLoop_header h (f :: bs) none [] hhdr]
    rw [structLoop_field f bs (some (cleanTitle h)) [] hfld hcol]
    have e2 : structLoop bs (some (cleanTitle h)) [] =
        [Entry.sect (cleanTitle h) bs] := by
      have e := structLoop_bodies bs [] (cleanTitle h) []
        (fun b hbm => ⟨(hbs b hbm).2.1, (hbs b hbm).2.2⟩)
      rw [List.append_nil] at e
      rw [e]
      rfl
    rw [e2]
    simp [flushSection]
  · intro l hl
    rcases List.mem_cons.mp hl with rfl | hl2
    · exact hhn
    · rcases List.mem_cons.mp hl2 with rfl | hl3
      · exact hfn
      · exact (hbs l hl3).1

/-- Witness for C3's amended theorem at a concrete input. -/
theorem field_emitted_before_section_flush_w :
    text_to_xml (joinNL [(("Điều 1").data), (("Bên A: X").data),
        (("nội dung").data)]) =
      joinNL (declLine :: docOpenLine ::
        (serializeEntry (Entry.field
            (pyStrip ((("Bên A: X").data).takeWhile (fun c => c != ':')))
            (pyStrip (((("Bên A: X").data).dropWhile
              (fun c => c != ':')).drop 1))) ++
          serializeEntry (Entry.sect (cleanTitle (("Điều 1").data))
            [(("nội dung").data)]) ++ [docCloseLine])) :=
  field_emitted_before_section_flush (("Điều 1").data) (("Bên A: X").data)
    [(("nội dung").data)] (by decide) (by decide) (by decide) (by decide)
    (by decide) (by decide)

/-! ### Document shape (C8) -/

theorem isPrefixOf_self_append (p x : Str) : p.isPrefixOf (p ++ x) = true := by
  induction p with
  | nil => simp [List.isPrefixOf]
  | cons c cs ih => simp [List.isPrefixOf, ih]

theorem serializeEntry_shape (e : Entry) :
    ∀ l ∈ serializeEntry e, entryLineOk l = true := by
  cases e with
  | field k v =>
    intro l hl
    simp only [serializeEntry, List.mem_singleton] at hl
    subst hl
    simp [entryLineOk, List.append_assoc, isPrefixOf_self_append]
  | header t =>
    intro l hl
    simp only [serializeEntry, List.mem_singleton] at hl
    subst hl
    simp [entryLineOk, List.append_assoc, isPrefixOf_self_append]
  | sect t ps =>
    intro l hl
    simp only [serializeEntry, List.mem_cons, List.mem_append,
      List.mem_map, List.mem_singleton] at hl
    rcases hl with (rfl | ⟨p, -, rfl⟩) | rfl | h0
    · simp [entryLineOk, List.append_assoc, isPrefixOf_self_append]
    · simp [entryLineOk, List.append_assoc, isPrefixOf_self_append]
    · simp [entryLineOk]
    · simp at h0

/-- C8: `text_to_xml` is a total function of the input (it cannot raise), and
for every input string its emitted parts are exactly the fixed XML
declaration, the `document` open tag, a run of field / header /
section-with-paragraph lines, and the `document` close tag; the returned
string is the newline join of those parts. -/
theorem text_to_xml_total_shape (t : Str) :
    ∃ mid, xmlParts t = declLine :: docOpenLine :: (mid ++ [docCloseLine]) ∧
      (∀ l ∈ mid, entryLineOk l = true) ∧
      text_to_xml t =
        joinNL (declLine :: docOpenLine :: (mid ++ [docCloseLine])) := by
  refine ⟨(structLoop (prepLines t) none []).flatMap serializeEntry,
    rfl, ?_, rfl⟩
  intro l hl
  simp only [List.mem_flatMap] at hl
  obtain ⟨e, -, hm⟩ := hl
  exact serializeEntry_shape e l hm

/-! ### Mock paraphrase (C5) -/

theorem takeWhile_append_all (p : Char → Bool) (a b : Str)
    (ha : a.all p = true) : (a ++ b).takeWhile p = a ++ b.takeWhile p := by
  induction a with
  | nil => simp
  | cons c cs ih =>
    simp only [List.all_cons, Bool.and_eq_true] at ha
    simp [List.takeWhile_cons, ha.1, ih ha.2]

theorem dropWhile_append_all (p : Char → Bool) (a b : Str)
    (ha : a.all p = true) : (a ++ b).dropWhile p = b.dropWhile p := by
  induction a with
  | nil => simp
  | cons c cs ih =>
    simp only [List.all_cons, Bool.and_eq_true] at ha
    simp [List.dropWhile_cons, ha.1, ih ha.2]

/-- On a well-formed unit the anchored regex match is forced and consumes
exactly the unit. -/
theorem matchTagP_render (u : TagUnit) (rest : Str) (hg : goodUnit u = true) :
    matchTagP (renderUnit u ++ rest) =
      some (u.tag, u.content, u.closing, rest) := by
  simp only [goodUnit, Bool.and_eq_true, Bool.not_eq_true'] at hg
  obtain ⟨⟨⟨⟨⟨ht1, ht2⟩, hc1⟩, hc2⟩, hl1⟩, hl2⟩ := hg
  rw [show renderUnit u ++ rest =
    '<' :: (u.tag ++ ('>' :: (u.content ++
      ('<' :: '/' :: (u.closing ++ ('>' :: rest)))))) from by simp [renderUnit]]
  simp [matchTagP, takeWhile_append_all, dropWhile_append_all, ht1, ht2,
    hc1, hc2, hl1, hl2, List.takeWhile_cons, List.dropWhile_cons, tagOk]

/-- One scan step of the substitution on a leading well-formed unit. -/
theorem subFuel_step (fl : Nat) (u : TagUnit) (rest : Str)
    (hg : goodUnit u = true) :
    subFuel (fl + 1) (renderUnit u ++ rest) =
      replace_content u.tag u.content u.closing ++ subFuel fl rest := by
  have hm := matchTagP_render u rest hg
  rw [show renderUnit u ++ rest =
    '<' :: (u.tag ++ ('>' :: (u.content ++
      ('<' :: '/' :: (u.closing ++ ('>' :: rest)))))) from by simp [renderUnit]]
      at hm ⊢
  simp only [subFuel]
  rw [hm]

/-- The substitution, given enough fuel, maps a concatenation of well-formed
units to the concatenation of their replacements. -/
theorem subFuel_units : ∀ (us : List TagUnit) (fuel : Nat),
    (∀ u ∈ us, goodUnit u = true) →
    ((us.map renderUnit).flatten).length ≤ fuel →
    subFuel fuel ((us.map renderUnit).flatten) =
      (us.map (fun u => replace_content u.tag u.content u.closing)).flatten := by
  intro us
  induction us with
  | nil =>
    intro fuel _ _
    cases fuel <;> rfl
  | cons u us ih =>
    intro fuel hg hlen
    simp only [List.map_cons, List.flatten_cons] at hlen ⊢
    have hone : 1 ≤ (renderUnit u).length := by simp [renderUnit]
    rw [List.length_append] at hlen
    cases fuel with
    | zero => omega
    | succ fl =>
      rw [subFuel_step fl u _ (hg u (List.mem_cons_self _ _))]
      rw [ih fl (fun x hx => hg x (List.mem_cons_of_mem _ hx)) (by omega)]

/-- The `replace_content` callback, written as the explicit
keep-or-mark alternative on a unit. -/
theorem replace_content_eq_unit (u : TagUnit) :
    replace_content u.tag u.content u.closing =
      if (match u.tag with | c :: _ => c == '?' | [] => false) ||
          (pyStrip u.content).isEmpty then renderUnit u
      else '<' :: (u.tag ++ '>' :: (rewriteMark ++ u.content ++
        '<' :: '/' :: (u.closing ++ ['>']))) := by
  by_cases hcond : ((match u.tag with | c :: _ => c == '?' | [] => false) ||
      (pyStrip u.content).isEmpty) = true
  · rw [replace_content.eq_def, if_pos hcond, if_pos hcond]
    simp [renderUnit]
  · rw [replace_content.eq_def, if_neg hcond, if_neg hcond]

/-- C5: over any concatenation of regex-matchable tag units, the mock
paraphraser prefixes each unit's inner text with the fixed marker
`[Đã viết lại] `, leaving the tag and closing-tag text untouched, except that
a declaration pseudo-tag (starting `?`) or whitespace-only content leaves the
unit unchanged; and on the concrete examples, `<paragraph>Xin chào</paragraph>`
gains the marker while the empty `<paragraph></paragraph>` (no regex match)
is returned unchanged. -/
theorem mock_paraphrase_marks_units :
    (∀ us : List TagUnit, (∀ u ∈ us, goodUnit u = true) →
      mock_paraphrase ((us.map renderUnit).flatten) =
        (us.map (fun u =>
          if (match u.tag with | c :: _ => c == '?' | [] => false) ||
              (pyStrip u.content).isEmpty then renderUnit u
          else '<' :: (u.tag ++ '>' :: (rewriteMark ++ u.content ++
            '<' :: '/' :: (u.closing ++ ['>']))))).flatten) ∧
    mock_paraphrase (("<paragraph>Xin chào</paragraph>").data) =
      (("<paragraph>[Đã viết lại] Xin chào</paragraph>").data) ∧
    mock_paraphrase (("<paragraph></paragraph>").data) =
      (("<paragraph></paragraph>").data) := by
  refine ⟨?_, by decide, by decide⟩
  intro us hg
  rw [mock_paraphrase, subFuel_units us _ hg le_rfl]
  exact congrArg List.flatten
    (List.map_congr_left (fun u _ => replace_content_eq_unit u))

/-- Witness for C5's universally quantified part: a marked unit followed by a
declaration unit left unchanged. -/
theorem mock_paraphrase_marks_units_w :
    mock_paraphrase ((([⟨("a").data, ("x").data, ("a").data⟩,
        ⟨("?xml").data, ("hi").data, ("d").data⟩] : List TagUnit).map
          renderUnit).flatten) =
      ((([⟨("a").data, ("x").data, ("a").data⟩,
        ⟨("?xml").data, ("hi").data, ("d").data⟩] : List TagUnit).map
          (fun u =>
            if (match u.tag with | c :: _ => c == '?' | [] => false) ||
                (pyStrip u.content).isEmpty then renderUnit u
            else '<' :: (u.tag ++ '>' :: (rewriteMark ++ u.content ++
              '<' :: '/' :: (u.closing ++ ['>']))))).flatten) :=
  mock_paraphrase_marks_units.1
    [⟨("a").data, ("x").data, ("a").data⟩,
     ⟨("?xml").data, ("hi").data, ("d").data⟩] (by decide)

end OCRSpec
